import Mathlib

/-!
Verification development for the jobber repository: a shallow embedding of
the LinkedIn scrape pipeline (`scrape/linkedin.go`), its retry/backoff and
pagination logic, the HTML-extraction step, and the query-lifecycle
orchestration (`jobber.runQuery`, `jobber.CreateQuery`), together with
theorems settling the specification claims.

Machine times (Go `time.Time`) are modelled as `Int` nanoseconds since the
Unix epoch.  `pgtype.Timestamptz` is a time plus a validity flag.
-/

/-- Go constant `searchInterval = 10`: the LinkedIn pagination interval. -/
def searchInterval : Nat := 10

/-- Go constant `oneWeekInSeconds = 604800`. -/
def oneWeekInSeconds : Int := 604800

/-- Go constant `maxRetries = 5`: the exponential-backoff limit. -/
def maxRetries : Nat := 5

/-- Model of `pgtype.Timestamptz`: a time instant (nanoseconds since the
Unix epoch) and a validity flag. -/
structure Timestamptz where
  time : Int
  valid : Bool
deriving DecidableEq, Repr

/-- Model of `db.Query` (columns used by the scraper and the jobber). -/
structure Query where
  id : Int
  keywords : String
  location : String
  createdAt : Timestamptz
  queriedAt : Timestamptz
  updatedAt : Timestamptz
deriving DecidableEq, Repr

/-- Model of `db.CreateOfferParams`: one posting extracted by the scraper. -/
structure CreateOfferParams where
  id : String
  title : String
  company : String
  location : String
  postedAt : Timestamptz
deriving DecidableEq, Repr

/-! ## Calendar arithmetic for `time.Parse("2006-01-02", s)`

Go's `time.Time` zero value is 0001-01-01 00:00:00 UTC.  We convert a
proleptic-Gregorian date to nanoseconds since the Unix epoch via a
rata-die day count. -/

/-- Gregorian leap-year rule, as in Go's `time` package. -/
def isLeapYear (y : Nat) : Bool :=
  (y % 4 == 0 && y % 100 != 0) || y % 400 == 0

/-- Number of days of month `m` (1..12) in year `y`. -/
def daysInMonth (y m : Nat) : Nat :=
  if m = 2 then (if isLeapYear y then 29 else 28)
  else if m = 4 ∨ m = 6 ∨ m = 9 ∨ m = 11 then 30
  else 31

/-- Days in year `y` strictly before month `m`. -/
def daysBeforeMonth (y m : Nat) : Nat :=
  (List.range (m - 1)).foldl (fun acc k => acc + daysInMonth y (k + 1)) 0

/-- Days since 0001-01-01 of a (valid, year ≥ 1) Gregorian date. -/
def rataDie (y m d : Nat) : Nat :=
  ((365 * (y - 1) + (y - 1) / 4) - (y - 1) / 100) + (y - 1) / 400
    + daysBeforeMonth y m + (d - 1)

/-- Rata-die day number of the Unix epoch 1970-01-01. -/
def unixEpochRataDie : Nat := rataDie 1970 1 1

/-- Nanoseconds since the Unix epoch of midnight UTC on a Gregorian date. -/
def dateToUnixNs (y m d : Nat) : Int :=
  ((rataDie y m d : Int) - (unixEpochRataDie : Int)) * 86400000000000

/-- The instant of Go's zero `time.Time` (0001-01-01 UTC). -/
def goZeroTimeNs : Int := dateToUnixNs 1 1 1

/-- Numeric value of a decimal digit character. -/
def digitVal (c : Char) : Nat := c.toNat - 48

/-- Model of Go `time.Parse("2006-01-02", s)`: accepts exactly the shape
YYYY-MM-DD with four/two/two decimal digits, a month in 1..12 and a day in
1..`daysInMonth`; returns the instant of midnight UTC on that date, or
`none` on any parse failure. -/
def parseDate (s : String) : Option Int :=
  match s.toList with
  | [c1, c2, c3, c4, h1, c5, c6, h2, c7, c8] =>
    if (h1 == '-') && (h2 == '-')
        && [c1, c2, c3, c4, c5, c6, c7, c8].all Char.isDigit then
      let y := ((digitVal c1 * 10 + digitVal c2) * 10 + digitVal c3) * 10 + digitVal c4
      let m := digitVal c5 * 10 + digitVal c6
      let d := digitVal c7 * 10 + digitVal c8
      if 1 ≤ m && m ≤ 12 && 1 ≤ d && d ≤ daysInMonth y m then
        some (dateToUnixNs y m d)
      else none
    else none
  | _ => none

/-! ## Extraction (`parseLinkedInBody`, authoritative variant, lines 275-314)

An `li` node of the fetched document is abstracted by the results of the
fixed goquery selections the code performs on it. -/

/-- One `li` node of the document, abstracted by the selections
`parseLinkedInBody` performs: whether it contains a `.base-search-card`,
the optional `data-entity-urn` attribute, the text of the title, subtitle
link and location selections, and the optional `datetime` attribute. -/
structure LiNode where
  hasBaseSearchCard : Bool
  urn : Option String
  titleText : String
  subtitleText : String
  locationText : String
  datetime : Option String
deriving DecidableEq, Repr

/-- Model of the Go function `normalize`: split on newlines, trim each piece, join with a
space, and trim the result. -/
def normalizeText (s : String) : String :=
  (String.intercalate (" ") ((s.splitOn ("\n")).map String.trim)).trim

/-- Extraction of one job card, mirroring the body of the `Each` callback:
ID is the last `:`-separated component of the urn (empty when the
attribute is absent), the texts are normalized, and PostedAt is the parsed
`datetime` with a parse failure silently replaced by the zero time, the
Valid flag always set. -/
def extractJob (n : LiNode) : CreateOfferParams :=
  let id := match n.urn with
    | some u => (u.splitOn (":")).getLastD ("")
    | none => ""
  let t := (parseDate (n.datetime.getD (""))).getD goZeroTimeNs
  { id := id
    title := normalizeText n.titleText
    company := normalizeText n.subtitleText
    location := normalizeText n.locationText
    postedAt := { time := t, valid := true } }

/-- Model of `parseLinkedInBody` (authoritative variant): every `li` node
containing a job card is extracted and appended; there is no check on the
extracted fields. -/
def parseLinkedInBody (doc : List LiNode) : List CreateOfferParams :=
  doc.foldl (fun jobs n => if n.hasBaseSearchCard then jobs ++ [extractJob n] else jobs) []

lemma parseLinkedInBody_foldl (doc : List LiNode) :
    ∀ acc : List CreateOfferParams,
      doc.foldl (fun jobs n => if n.hasBaseSearchCard then jobs ++ [extractJob n] else jobs) acc
        = acc ++ (doc.filter (fun n => n.hasBaseSearchCard)).map extractJob := by
  induction doc with
  | nil => intro acc; simp
  | cons n doc ih =>
    intro acc
    by_cases h : n.hasBaseSearchCard
    · simp [List.foldl_cons, h, ih]
    · simp [List.foldl_cons, h, ih]

/-- Characterization of the extraction: one posting per job-card node, in
document order. -/
lemma parseLinkedInBody_eq (doc : List LiNode) :
    parseLinkedInBody doc = (doc.filter (fun n => n.hasBaseSearchCard)).map extractJob := by
  simpa using parseLinkedInBody_foldl doc []

/-! ## Fetch outcome classification and retry (`fetchOffersPage`, lines 240-272) -/

/-- Model of the `isRetryable` status-code set: request-timeout 408,
too-early 425, too-many-requests 429, internal-error 500, bad-gateway 502,
service-unavailable 503, gateway-timeout 504. -/
def isRetryable (code : Nat) : Bool :=
  code == 408 || code == 425 || code == 429 || code == 500
    || code == 502 || code == 503 || code == 504

/-- Errors `fetchOffersPage` can return: the retryable-exhausted sentinel
`ErrRetryable` (wrapped with `%w`) or a fatal non-200 status. -/
inductive FetchErr where
  | retryableExhausted
  | fatal (code : Nat)
deriving DecidableEq, Repr

/-- Observable outcome of the retry loop in `fetchOffersPage`: the result
(on success, the index of the successful attempt), the number of HTTP GET
requests issued, and the `time.Sleep` durations in nanoseconds, in order. -/
structure FetchOutcome where
  result : Except FetchErr Nat
  requests : Nat
  sleeps : List Int
deriving Repr

/-- One unfolding of the retry loop of `fetchOffersPage`: `status a` is
the HTTP status code of the `a`-th GET of this page.  A 200 ends the loop;
a retryable status sleeps `retries` seconds and retries unless `retries`
has reached `maxRetries`; any other status is fatal immediately.  The fuel
only serves termination: the loop exits before it runs out. -/
def fetchAttempts (status : Nat → Nat) (attempt retries fuel : Nat) : FetchOutcome :=
  match fuel with
  | 0 => ⟨.error .retryableExhausted, 0, []⟩
  | fuel + 1 =>
    let code := status attempt
    if code = 200 then ⟨.ok attempt, 1, []⟩
    else if isRetryable code then
      if retries = maxRetries then ⟨.error .retryableExhausted, 1, []⟩
      else
        let rest := fetchAttempts status (attempt + 1) (retries + 1) fuel
        ⟨rest.result, rest.requests + 1, ((retries : Int) * 1000000000) :: rest.sleeps⟩
    else ⟨.error (.fatal code), 1, []⟩

/-- Model of the retry loop of `fetchOffersPage` for one page: starts at
attempt 0 with `retries = 0`. -/
def fetchOffersPageRetry (status : Nat → Nat) : FetchOutcome :=
  fetchAttempts status 0 0 (maxRetries + 1)

lemma isRetryable_ne_200 {c : Nat} (h : isRetryable c = true) : c ≠ 200 := by
  intro e
  subst e
  simp [isRetryable] at h

lemma fetchAttempts_allRetryable (status : Nat → Nat)
    (h : ∀ a, isRetryable (status a) = true) :
    ∀ fuel attempt retries, retries + fuel = maxRetries + 1 → 1 ≤ fuel →
      fetchAttempts status attempt retries fuel =
        ⟨.error .retryableExhausted, fuel,
          (List.range' retries (fuel - 1)).map (fun r => (r : Int) * 1000000000)⟩ := by
  intro fuel
  induction fuel with
  | zero => intro attempt retries _ h1; omega
  | succ f ih =>
    intro attempt retries hsum _
    rw [fetchAttempts]
    simp only [if_neg (isRetryable_ne_200 (h attempt)), if_pos (h attempt)]
    by_cases hr : retries = maxRetries
    · subst hr
      have hf : f = 0 := by omega
      subst hf
      rw [if_pos rfl]
      simp [List.range']
    · have hf1 : 1 ≤ f := by omega
      rw [if_neg hr, ih (attempt + 1) (retries + 1) (by omega) hf1]
      have hrange : List.range' retries (f + 1 - 1) =
          retries :: List.range' (retries + 1) (f - 1) := by
        have he : f + 1 - 1 = (f - 1) + 1 := by omega
        rw [he, List.range'_succ]
      rw [hrange]
      simp

/-- When every attempt at a page yields a retryable status, the loop
issues `maxRetries + 1 = 6` GETs, sleeps 0,1,2,3,4 seconds between them,
and gives up with the retryable-exhausted error. -/
lemma fetchRetry_exhausted (status : Nat → Nat)
    (h : ∀ a, isRetryable (status a) = true) :
    fetchOffersPageRetry status =
      ⟨.error .retryableExhausted, maxRetries + 1,
        (List.range' 0 maxRetries).map (fun r => (r : Int) * 1000000000)⟩ := by
  rw [fetchOffersPageRetry,
    fetchAttempts_allRetryable status h (maxRetries + 1) 0 0 (by omega) (by omega)]
  norm_num

/-- A non-200, non-retryable first status is returned as a fatal error
with a single request and no sleep. -/
lemma fetchRetry_fatal (status : Nat → Nat)
    (h200 : status 0 ≠ 200) (hnr : isRetryable (status 0) = false) :
    fetchOffersPageRetry status = ⟨.error (.fatal (status 0)), 1, []⟩ := by
  rw [fetchOffersPageRetry, fetchAttempts]
  simp [h200, hnr]

/-- A 200 on the first attempt succeeds with a single request. -/
lemma fetchRetry_ok (status : Nat → Nat) (h : status 0 = 200) :
    fetchOffersPageRetry status = ⟨.ok 0, 1, []⟩ := by
  rw [fetchOffersPageRetry, fetchAttempts]
  simp [h]

/-! ## Pagination (`Scrape`, lines 195-213) -/

/-- Errors `Scrape` can return.  A fetch failure is wrapped with `%w`
(`errors.Is` still sees the sentinel); a parse failure is wrapped with
`%v` and loses the chain.  The parse step of the model is total, so
`parseFailed` never arises here; it records the second error path of the
source. -/
inductive ScrapeErr where
  | fetchFailed (e : FetchErr)
  | parseFailed
deriving DecidableEq, Repr

/-- Model of `errors.Is(err, scrape.ErrRetryable)`: `%w`-wrapping by the
fetch path preserves the sentinel. -/
def scrapeErrIsRetryable : ScrapeErr → Bool
  | .fetchFailed .retryableExhausted => true
  | _ => false

/-- Result of one `Scrape` run: accumulated postings, the error returned
with them (if any), and the number of page requests issued. -/
structure ScrapeResult where
  offers : List CreateOfferParams
  err : Option ScrapeErr
  requests : Nat
deriving DecidableEq, Repr

/-- The pagination loop of `Scrape`: `fetch i` is the combined outcome of
`fetchOffersPage` and `parseLinkedInBody` for the page at offset `i`.  The
page at offset 0 is always requested; afterwards the loop continues
exactly while the previous page had `searchInterval` items.  On a fetch
failure the accumulated `totalOffers` are returned together with the
wrapped error.  The fuel only serves termination and is supplied
sufficiently large by the theorems. -/
def ScrapeLoop (fetch : Nat → Except FetchErr (List CreateOfferParams))
    (total : List CreateOfferParams) (i fuel : Nat) : ScrapeResult :=
  match fuel with
  | 0 => ⟨total, none, 0⟩
  | fuel + 1 =>
    match fetch i with
    | .error e => ⟨total, some (.fetchFailed e), 1⟩
    | .ok offers =>
      if offers.length = searchInterval then
        let r := ScrapeLoop fetch (total ++ offers) (i + searchInterval) fuel
        ⟨r.offers, r.err, r.requests + 1⟩
      else ⟨total ++ offers, none, 1⟩

/-- Model of `Scrape`: run the pagination loop from offset 0 with nothing
accumulated. -/
def Scrape (fetch : Nat → Except FetchErr (List CreateOfferParams)) (fuel : Nat) :
    ScrapeResult :=
  ScrapeLoop fetch [] 0 fuel

/-- A source holding the fixed result list `all`, paged in blocks of
`searchInterval`: the page at offset `i` is `(all.drop i).take 10` and
every fetch succeeds. -/
def listFetch (all : List CreateOfferParams) (i : Nat) :
    Except FetchErr (List CreateOfferParams) :=
  .ok ((all.drop i).take searchInterval)

lemma scrapeLoop_listFetch (all : List CreateOfferParams) :
    ∀ fuel i total, (all.length - i) / searchInterval + 1 ≤ fuel →
      ScrapeLoop (listFetch all) total i fuel =
        ⟨total ++ all.drop i, none, (all.length - i) / searchInterval + 1⟩ := by
  intro fuel
  induction fuel with
  | zero => intro i total h; exact (Nat.not_succ_le_zero _ h).elim
  | succ f ih =>
    intro i total h
    have hlen : ((all.drop i).take searchInterval).length =
        min searchInterval (all.length - i) := by
      simp [List.length_take, List.length_drop]
    by_cases hbig : searchInterval ≤ all.length - i
    · have hfull : ((all.drop i).take searchInterval).length = searchInterval := by
        rw [hlen]; omega
      have hfuel : (all.length - (i + searchInterval)) / searchInterval + 1 ≤ f := by
        simp only [searchInterval] at hbig h ⊢
        omega
      have hih := ih (i + searchInterval) (total ++ (all.drop i).take searchInterval) hfuel
      simp only [ScrapeLoop, listFetch, hfull, if_pos, hih]
      have hdrop : (all.drop i).take searchInterval ++ all.drop (i + searchInterval) =
          all.drop i := by
        have h1 : all.drop (i + searchInterval) = (all.drop i).drop searchInterval :=
          (List.drop_drop ..).symm
        rw [h1, List.take_append_drop]
      have hcount : (all.length - (i + searchInterval)) / searchInterval + 1 + 1 =
          (all.length - i) / searchInterval + 1 := by
        simp only [searchInterval] at hbig ⊢
        omega
      simp [List.append_assoc, hdrop, hcount]
    · have hsmall : all.length - i < searchInterval := by omega
      have hlt : ¬ ((all.drop i).take searchInterval).length = searchInterval := by
        rw [hlen]; omega
      have htake : (all.drop i).take searchInterval = all.drop i := by
        apply List.take_of_length_le
        simp only [List.length_drop]
        omega
      have hcount : (all.length - i) / searchInterval + 1 = 1 := by
        have hz : (all.length - i) / searchInterval = 0 := Nat.div_eq_of_lt hsmall
        rw [hz]
      simp only [ScrapeLoop, listFetch]
      rw [if_neg hlt, htake, hcount]

/-- The fetch-and-parse step of `Scrape` for one page, composed from the
retry loop and the (total) extraction: `status i` gives the HTTP statuses
of the successive attempts at offset `i`, and `content i` is the parsed
posting list of that page's body. -/
def pipelineFetch (status : Nat → Nat → Nat) (content : Nat → List CreateOfferParams)
    (i : Nat) : Except FetchErr (List CreateOfferParams) :=
  match (fetchOffersPageRetry (status i)).result with
  | .ok _ => .ok (content i)
  | .error e => .error e

lemma scrapeLoop_retryExhausted (status : Nat → Nat → Nat)
    (content : Nat → List CreateOfferParams) :
    ∀ k i total fuel, k + 1 ≤ fuel →
      (∀ j, j < k → status (i + searchInterval * j) 0 = 200) →
      (∀ j, j < k → (content (i + searchInterval * j)).length = searchInterval) →
      (∀ a, isRetryable (status (i + searchInterval * k) a) = true) →
      ScrapeLoop (pipelineFetch status content) total i fuel =
        ⟨total ++ ((List.range k).map (fun j => content (i + searchInterval * j))).flatten,
          some (.fetchFailed .retryableExhausted), k + 1⟩ := by
  intro k
  induction k with
  | zero =>
    intro i total fuel hfuel _ _ hretry
    match fuel, hfuel with
    | f + 1, _ =>
      rw [ScrapeLoop]
      have hfe : pipelineFetch status content i = .error .retryableExhausted := by
        rw [pipelineFetch]
        have hx : (∀ a, isRetryable (status i a) = true) := by
          intro a
          have hr := hretry a
          simpa using hr
        rw [fetchRetry_exhausted (status i) hx]
      simp only [hfe]
      simp
  | succ k ih =>
    intro i total fuel hfuel h200 hlen hretry
    match fuel, hfuel with
    | f + 1, hfuel =>
      rw [ScrapeLoop]
      have hok : pipelineFetch status content i = .ok (content i) := by
        rw [pipelineFetch]
        have h0 : status (i + searchInterval * 0) 0 = 200 := h200 0 (Nat.succ_pos k)
        simp only [Nat.mul_zero, Nat.add_zero] at h0
        rw [fetchRetry_ok (status i) h0]
      simp only [hok]
      have hfull : (content i).length = searchInterval := by
        have h0 := hlen 0 (Nat.succ_pos k)
        simpa using h0
      rw [if_pos hfull]
      have hih := ih (i + searchInterval) (total ++ content i) f (by omega)
        (fun j hj => by
          have hs := h200 (j + 1) (by omega)
          have he : i + searchInterval * (j + 1) = i + searchInterval + searchInterval * j := by
            ring
          rw [he] at hs
          exact hs)
        (fun j hj => by
          have hs := hlen (j + 1) (by omega)
          have he : i + searchInterval * (j + 1) = i + searchInterval + searchInterval * j := by
            ring
          rw [he] at hs
          exact hs)
        (by
          intro a
          have hs := hretry a
          have he : i + searchInterval * (k + 1) = i + searchInterval + searchInterval * k := by
            ring
          rw [he] at hs
          exact hs)
      rw [hih]
      have hr : ((List.range (k + 1)).map (fun j => content (i + searchInterval * j))).flatten =
          content i ++
            ((List.range k).map (fun j => content (i + searchInterval + searchInterval * j))).flatten := by
        rw [List.range_succ_eq_map]
        simp only [List.map_cons, List.map_map, List.flatten_cons, Nat.mul_zero, Nat.add_zero]
        congr 1
        congr 1
        apply List.map_congr_left
        intro j _
        simp only [Function.comp_apply, Nat.succ_eq_add_one]
        congr 1
        ring
      rw [hr]
      simp [List.append_assoc]

lemma flatten_pages_length (content : Nat → List CreateOfferParams) :
    ∀ k i, (∀ j, j < k → (content (i + searchInterval * j)).length = searchInterval) →
      (((List.range k).map (fun j => content (i + searchInterval * j))).flatten).length =
        searchInterval * k := by
  intro k
  induction k with
  | zero => intro i _; simp
  | succ k ih =>
    intro i hlen
    rw [List.range_succ]
    simp only [List.map_append, List.map_cons, List.map_nil, List.flatten_append,
      List.flatten_cons, List.flatten_nil, List.length_append, List.append_nil]
    rw [ih i (fun j hj => hlen j (by omega)), hlen k (by omega)]
    ring

/-! ## Request parameters of `fetchOffersPage` (lines 217-238) -/

/-- Go constant `paramKeywords`. -/
def paramKeywords : String := "keywords"

/-- Go constant `paramLocation`. -/
def paramLocation : String := "location"

/-- Go constant `paramStart`. -/
def paramStart : String := "start"

/-- Go constant `paramFTPR`. -/
def paramFTPR : String := "f_TPR"

/-- Model of `int(time.Since(t).Seconds())`: the elapsed nanoseconds
divided by 10^9, truncated toward zero as Go's float-to-int conversion
does (`Int.tdiv` is truncating division). -/
def goSecondsSince (now t : Int) : Int :=
  Int.tdiv (now - t) 1000000000

/-- The query parameters `fetchOffersPage` adds, in insertion order:
keywords, location, `start` only when non-zero, and `f_TPR` which is the
default one-week window unless the query's UpdatedAt is valid, in which
case it is the elapsed seconds since UpdatedAt. -/
def buildPageParams (now : Int) (q : Query) (start : Int) : List (String × String) :=
  let qp := [(paramKeywords, q.keywords), (paramLocation, q.location)]
  let qp := if start ≠ 0 then qp ++ [(paramStart, toString start)] else qp
  let ftpr : Int :=
    if q.updatedAt.valid then goSecondsSince now q.updatedAt.time else oneWeekInSeconds
  qp ++ [(paramFTPR, "r" ++ toString ftpr)]

/-! ## Persistence and lifecycle (`jobber.runQuery`, `jobber.CreateQuery`)

The Persistence Adapter itself (the SQL behind `db.Queries`) is not part
of the sources; its operations are modelled from the spec, as marked on
each definition.  The loop and branch structure around them follows
`jobber.go` (part_002). -/

/-- Model of one stored `offers` row. -/
structure Offer where
  id : String
  title : String
  company : String
  location : String
  postedAt : Timestamptz
deriving DecidableEq, Repr

/-- The row inserted by `CreateOffer` from its parameters. -/
def offerOfParams (o : CreateOfferParams) : Offer :=
  ⟨o.id, o.title, o.company, o.location, o.postedAt⟩

/-- Database state: stored queries, offers, and query-offer associations. -/
structure DBState where
  queries : List Query
  offers : List Offer
  assocs : List (Int × String)
deriving DecidableEq, Repr

/-- Modelled from the spec: the Persistence Adapter operation
`CreateOffer(posting) -> ok | DuplicateError` (§6); a Posting id is stored
at most once system-wide (§3), so inserting an existing id reports a
duplicate error and stores nothing. -/
def createOfferDB (st : DBState) (o : CreateOfferParams) : Except Unit DBState :=
  if st.offers.any (fun x => x.id == o.id) then .error ()
  else .ok { st with offers := st.offers ++ [offerOfParams o] }

/-- Modelled from the spec: the Persistence Adapter operation
`CreateAssociation(queryId, postingId) -> ok | DuplicateError` (§6); the
(queryId, postingId) pair is unique (§3). -/
def createAssocDB (st : DBState) (qid : Int) (oid : String) : Except Unit DBState :=
  if st.assocs.any (fun p => p.1 == qid && p.2 == oid) then .error ()
  else .ok { st with assocs := st.assocs ++ [(qid, oid)] }

/-- Modelled from the spec: `DeleteQuery(id)` (§6); associations are
deleted when either side is deleted (§3). -/
def deleteQueryDB (st : DBState) (qid : Int) : DBState :=
  { st with
    queries := st.queries.filter (fun q => !(q.id == qid))
    assocs := st.assocs.filter (fun p => !(p.1 == qid)) }

/-- Modelled from the spec: `CreateQuery(keywords, location) -> Query |
ConflictError` (§6); the (keywords, location) pair is unique (§3).  The
new row gets a fresh id, `createdAt`/`queriedAt` now, and a not-yet-valid
`updatedAt` (no completed scrape cycle). -/
def createQueryDB (now : Int) (st : DBState) (keywords location : String) :
    Except Unit (Query × DBState) :=
  if st.queries.any (fun q => q.keywords == keywords && q.location == location) then
    .error ()
  else
    let q : Query :=
      { id := (st.queries.length : Int) + 1
        keywords := keywords
        location := location
        createdAt := ⟨now, true⟩
        queriedAt := ⟨now, true⟩
        updatedAt := ⟨0, false⟩ }
    .ok (q, { st with queries := st.queries ++ [q] })

/-- Modelled from the spec: `UpdateQueryRunTimestamp(id)` (§6), called
`UpdateQueryUAT` in the code: sets the query's `updatedAt` to now. -/
def updateQueryUATDB (st : DBState) (qid : Int) (now : Int) : DBState :=
  { st with
    queries := st.queries.map (fun q =>
      if q.id == qid then { q with updatedAt := ⟨now, true⟩ } else q) }

/-- Modelled from the spec: a scheduler task (§4.1) is either the
recurring cron task for a query, tagged with keywords ++ location and
phase-offset by the creation minute, or a one-off retry at a fixed
instant. -/
inductive SchedTask where
  | recurring (tag : String) (qid : Int) (cronMinute : Nat)
  | oneOff (startAt : Int) (qid : Int)
deriving DecidableEq, Repr

/-- Whether a task carries the given tag; one-off retry tasks are created
without tags. -/
def taskHasTag (tag : String) : SchedTask → Bool
  | .recurring t _ _ => t == tag
  | .oneOff _ _ => false

/-- Modelled from the spec: `RemoveByTag` (§4.1), `RemoveByTags` in the
code: cancels the recurring tasks matching the tag. -/
def removeByTags (tasks : List SchedTask) (tag : String) : List SchedTask :=
  tasks.filter (fun t => !(taskHasTag tag t))

/-- Minute of the hour of an instant, for the cron phase offset. -/
def goMinute (t : Int) : Nat :=
  (Int.tmod (Int.tdiv t 60000000000) 60).toNat

/-- Go constant `time.Hour*24*7` in nanoseconds. -/
def sevenDaysNs : Int := 604800000000000

/-- Go constant `5*time.Minute` in nanoseconds. -/
def fiveMinutesNs : Int := 300000000000

/-- The persistence loop of `runQuery` (part_002 lines 169-182): for each
offer, `CreateOffer`; on error log and `continue` (the association is
skipped); otherwise `CreateQueryOfferAssoc`, whose own error is only
logged. -/
def persistOffers (qid : Int) (offers : List CreateOfferParams) (st : DBState) : DBState :=
  offers.foldl (fun st o =>
    match createOfferDB st o with
    | .error _ => st
    | .ok st1 =>
      match createAssocDB st1 qid o.id with
      | .error _ => st1
      | .ok st2 => st2) st

/-- Observable outcome of one `runQuery` execution: the database and
scheduler states afterwards, whether the scraper was invoked, and whether
`UpdateQueryUAT` ran. -/
structure RunResult where
  db : DBState
  tasks : List SchedTask
  scrapeCalled : Bool
  uatUpdated : Bool
deriving DecidableEq, Repr

/-- Model of `jobber.runQuery` (part_002 lines 131-189): load the query
(absent: log and stop); if `queriedAt` is more than 7 days old, delete the
query, remove its tagged recurring task and stop; otherwise scrape.  A
retryable scrape error queues a one-off retry in 5 minutes and stops; any
other scrape error stops; on success the offers are persisted and
`updatedAt` is set.  The scraper is passed in, as through the `Scraper`
interface. -/
def runQuery (now : Int)
    (scraper : Query → List CreateOfferParams × Option ScrapeErr)
    (st : DBState) (tasks : List SchedTask) (qID : Int) : RunResult :=
  match st.queries.find? (fun q => q.id == qID) with
  | none => ⟨st, tasks, false, false⟩
  | some q =>
    if now - q.queriedAt.time > sevenDaysNs then
      ⟨deleteQueryDB st q.id, removeByTags tasks (q.keywords ++ q.location), false, false⟩
    else
      match scraper q with
      | (_, some e) =>
        if scrapeErrIsRetryable e then
          ⟨st, tasks ++ [.oneOff (now + fiveMinutesNs) q.id], true, false⟩
        else ⟨st, tasks, true, false⟩
      | (offers, none) =>
        ⟨updateQueryUATDB (persistOffers q.id offers st) q.id now, tasks, true, true⟩

/-- Outcome of `jobber.CreateQuery`: the error returned to the caller and
the resulting database and scheduler states. -/
structure CreateQueryResult where
  err : Option Unit
  db : DBState
  tasks : List SchedTask
deriving DecidableEq, Repr

/-- Model of `jobber.CreateQuery` (part_002 lines 70-112): attempt the
insert; a uniqueness conflict returns nil with no scheduling change;
otherwise the new query is scheduled as a recurring task tagged
keywords ++ location (the immediate first run the code also triggers is a
separate scheduler-driven execution of `runQuery`, not part of this state
transition). -/
def CreateQueryJ (now : Int) (st : DBState) (tasks : List SchedTask)
    (keywords location : String) : CreateQueryResult :=
  match createQueryDB now st keywords location with
  | .error _ => ⟨none, st, tasks⟩
  | .ok (q, st1) =>
    ⟨none, st1, tasks ++ [.recurring (keywords ++ location) q.id (goMinute q.createdAt.time)]⟩

/-! ## Claim theorems -/

/-- Concrete posting used by witnesses. -/
def dummyOffer (n : Nat) : CreateOfferParams :=
  { id := toString n, title := "t", company := "c", location := "l",
    postedAt := ⟨0, true⟩ }

/-- C1: for every query and total source result count R with page size
N = 10, when every page fetch succeeds the Scrape pipeline issues one
request when R = 0, ceil(R/N)+1 requests when R is a positive exact
multiple of N, ceil(R/N) requests otherwise, and the concatenation of the
postings it returns is the full result list (length R). -/
theorem scrape_pagination_count_and_concat (all : List CreateOfferParams) (fuel : Nat)
    (hfuel : all.length / searchInterval + 1 ≤ fuel) :
    Scrape (listFetch all) fuel =
      ⟨all, none,
        if all.length = 0 then 1
        else if all.length % searchInterval = 0 then all.length / searchInterval + 1
        else (all.length + searchInterval - 1) / searchInterval⟩ := by
  have h := scrapeLoop_listFetch all fuel 0 [] (by simpa using hfuel)
  rw [Scrape, h]
  have hc : (all.length - 0) / searchInterval + 1 =
      (if all.length = 0 then 1
       else if all.length % searchInterval = 0 then all.length / searchInterval + 1
       else (all.length + searchInterval - 1) / searchInterval) := by
    simp only [searchInterval, Nat.sub_zero]
    split_ifs <;> omega
  rw [hc]
  simp

/-- Witness for C1: 12 postings are fetched in two page requests (10 then
2) and returned in full. -/
theorem scrape_pagination_count_and_concat_witness :
    Scrape (listFetch ((List.range 12).map dummyOffer)) 2 =
      ⟨(List.range 12).map dummyOffer, none,
        if ((List.range 12).map dummyOffer).length = 0 then 1
        else if ((List.range 12).map dummyOffer).length % searchInterval = 0 then
          ((List.range 12).map dummyOffer).length / searchInterval + 1
        else (((List.range 12).map dummyOffer).length + searchInterval - 1) / searchInterval⟩ :=
  scrape_pagination_count_and_concat ((List.range 12).map dummyOffer) 2
    (by simp only [List.length_map, List.length_range, searchInterval]; omega)

/-- Status and page-content functions of the C2 witness scenario: page 0
succeeds immediately with ten postings; every attempt at offset 10
returns 429. -/
def wStatus (i : Nat) (_ : Nat) : Nat := if i = 0 then 200 else 429

/-- Page contents of the C2 witness scenario. -/
def wContent (i : Nat) : List CreateOfferParams :=
  if i = 0 then (List.range 10).map dummyOffer else []

/-- C2: when the retry budget of the page at offset 10k is exhausted
(every attempt yields a retryable status) after k full pages, Scrape
returns exactly the postings accumulated from those prior successful pages
(10k of them, in particular non-empty when k is positive), paired with the
error wrapping the retryable-exhausted sentinel, on which `errors.Is`
still recognises `ErrRetryable`. -/
theorem scrape_retry_exhausted_returns_accumulated
    (status : Nat → Nat → Nat) (content : Nat → List CreateOfferParams) (k fuel : Nat)
    (hfuel : k + 1 ≤ fuel)
    (h200 : ∀ j, j < k → status (searchInterval * j) 0 = 200)
    (hlen : ∀ j, j < k → (content (searchInterval * j)).length = searchInterval)
    (hretry : ∀ a, isRetryable (status (searchInterval * k) a) = true) :
    Scrape (pipelineFetch status content) fuel =
      ⟨((List.range k).map (fun j => content (searchInterval * j))).flatten,
        some (.fetchFailed .retryableExhausted), k + 1⟩
    ∧ (((List.range k).map (fun j => content (searchInterval * j))).flatten).length
        = searchInterval * k
    ∧ scrapeErrIsRetryable (.fetchFailed .retryableExhausted) = true := by
  refine ⟨?_, ?_, rfl⟩
  · have h := scrapeLoop_retryExhausted status content k 0 [] fuel hfuel
      (fun j hj => by simpa using h200 j hj)
      (fun j hj => by simpa using hlen j hj)
      (by simpa using hretry)
    rw [Scrape, h]
    simp
  · have hf := flatten_pages_length content k 0 (fun j hj => by simpa using hlen j hj)
    simpa using hf

/-- Witness for C2: one full page then persistent 429 at offset 10. -/
theorem scrape_retry_exhausted_returns_accumulated_witness :
    Scrape (pipelineFetch wStatus wContent) 2 =
      ⟨((List.range 1).map (fun j => wContent (searchInterval * j))).flatten,
        some (.fetchFailed .retryableExhausted), 1 + 1⟩
    ∧ (((List.range 1).map (fun j => wContent (searchInterval * j))).flatten).length
        = searchInterval * 1
    ∧ scrapeErrIsRetryable (.fetchFailed .retryableExhausted) = true :=
  scrape_retry_exhausted_returns_accumulated wStatus wContent 1 2 (by omega)
    (fun j hj => by
      have hj0 : j = 0 := by omega
      subst hj0
      rfl)
    (fun j hj => by
      have hj0 : j = 0 := by omega
      subst hj0
      simp [wContent, searchInterval])
    (fun a => rfl)

/-- C7: a retryable status (from the fixed set 408, 425, 429, 500, 502,
503, 504) makes `fetchOffersPage` wait attempt * 1 second (attempt
counting from 0) before re-issuing the request, re-attempt at most
`maxRetries = 5` times (6 GETs in total), and return the
retryable-exhausted error once the budget is used; any other non-200
status is returned as a fatal error immediately, with no retry and no
sleep. -/
theorem fetch_retry_policy (status : Nat → Nat) :
    ((∀ a, isRetryable (status a) = true) →
      fetchOffersPageRetry status =
        ⟨.error .retryableExhausted, maxRetries + 1,
          [0, 1000000000, 2000000000, 3000000000, 4000000000]⟩)
    ∧ (status 0 ≠ 200 → isRetryable (status 0) = false →
      fetchOffersPageRetry status = ⟨.error (.fatal (status 0)), 1, []⟩)
    ∧ (∀ c, isRetryable c = true ↔
        (c = 408 ∨ c = 425 ∨ c = 429 ∨ c = 500 ∨ c = 502 ∨ c = 503 ∨ c = 504)) := by
  refine ⟨?_, fetchRetry_fatal status, ?_⟩
  · intro h
    rw [fetchRetry_exhausted status h]
    norm_num [maxRetries, List.range']
  · intro c
    simp [isRetryable]
    tauto

/-- Witness for C7: persistent 429 exhausts the budget after six requests
with sleeps 0..4 seconds; a 404 fails fatally at once. -/
theorem fetch_retry_policy_witness :
    fetchOffersPageRetry (fun _ => 429) =
      ⟨.error .retryableExhausted, maxRetries + 1,
        [0, 1000000000, 2000000000, 3000000000, 4000000000]⟩
    ∧ fetchOffersPageRetry (fun _ => 404) = ⟨.error (.fatal 404), 1, []⟩ :=
  ⟨(fetch_retry_policy (fun _ => 429)).1 (fun _ => rfl),
   (fetch_retry_policy (fun _ => 404)).2.1 (by decide) rfl⟩

/-- C6: the request built by `fetchOffersPage` carries exactly one f_TPR
parameter; its value is r604800 (7 days in seconds) when the query's
UpdatedAt is not valid, and the letter r followed by the whole number of
seconds elapsed between UpdatedAt and now when it is. -/
theorem fetch_ftpr_window (now : Int) (q : Query) (start : Int) :
    (buildPageParams now q start).lookup paramFTPR =
      some (if q.updatedAt.valid then
              "r" ++ toString (goSecondsSince now q.updatedAt.time)
            else "r604800")
    ∧ ((buildPageParams now q start).filter (fun p => p.1 == paramFTPR)).length = 1 := by
  constructor
  · by_cases hv : q.updatedAt.valid <;> by_cases hs : start = 0 <;>
      simp [buildPageParams, List.lookup, paramKeywords, paramLocation, paramStart,
        paramFTPR, oneWeekInSeconds, hv, hs] <;> rfl
  · by_cases hs : start = 0 <;>
      simp [buildPageParams, paramKeywords, paramLocation, paramStart, paramFTPR, hs]

/-- Job-card node of the C8 counterexample: a card with no urn and an
empty title. -/
def badCardNode : LiNode :=
  { hasBaseSearchCard := true, urn := none, titleText := "", subtitleText := "",
    locationText := "", datetime := none }

/-- C8 counterexample: the authoritative `parseLinkedInBody` (lines
275-314) appends a job-card node lacking identifier and title instead of
dropping it, so its output can contain a posting with empty ID and Title. -/
theorem parse_missing_fields_not_dropped_cex :
    ¬ (∀ j ∈ parseLinkedInBody [badCardNode], j.id ≠ "" ∧ j.title ≠ "") := by
  intro h
  have hmem : extractJob badCardNode ∈ parseLinkedInBody [badCardNode] := by
    rw [parseLinkedInBody_eq]
    simp [badCardNode]
  exact (h _ hmem).1 rfl

/-- C8 as amended: extraction is total and keeps every job-card node —
one posting per card node regardless of missing identifier or title, and
no candidate is reported as an error (the function has no failure
outcome). -/
theorem parse_appends_every_card (doc : List LiNode) :
    (parseLinkedInBody doc).length = (doc.filter (fun n => n.hasBaseSearchCard)).length
    ∧ ∀ n ∈ doc, n.hasBaseSearchCard = true → extractJob n ∈ parseLinkedInBody doc := by
  constructor
  · rw [parseLinkedInBody_eq, List.length_map]
  · intro n hn hc
    rw [parseLinkedInBody_eq]
    exact List.mem_map_of_mem _ (List.mem_filter.mpr ⟨hn, by simpa using hc⟩)

/-- Witness for the amended C8 at a one-node document whose card lacks
both identifier and title. -/
theorem parse_appends_every_card_witness :
    (parseLinkedInBody [badCardNode]).length =
      ([badCardNode].filter (fun n => n.hasBaseSearchCard)).length
    ∧ extractJob badCardNode ∈ parseLinkedInBody [badCardNode] :=
  ⟨(parse_appends_every_card [badCardNode]).1,
   (parse_appends_every_card [badCardNode]).2 badCardNode (by simp) rfl⟩

/-- C10: a job-card node whose datetime attribute is missing or does not
parse as a YYYY-MM-DD date is still returned by `parseLinkedInBody`, with
PostedAt equal to the zero time value and the Valid flag true. -/
theorem parse_bad_datetime_zero_time_kept
    (doc : List LiNode) (n : LiNode) (hn : n ∈ doc) (hc : n.hasBaseSearchCard = true)
    (hd : parseDate (n.datetime.getD ("")) = none) :
    extractJob n ∈ parseLinkedInBody doc
    ∧ (extractJob n).postedAt = ⟨goZeroTimeNs, true⟩ := by
  constructor
  · rw [parseLinkedInBody_eq]
    exact List.mem_map_of_mem _ (List.mem_filter.mpr ⟨hn, by simpa using hc⟩)
  · simp [extractJob, hd]

/-- Job-card node of the C10 witness: its datetime has the right shape
but an invalid month, so the date parse fails. -/
def wBadDateNode : LiNode :=
  { hasBaseSearchCard := true, urn := some ("urn:li:jobPosting:42"), titleText := "T",
    subtitleText := "C", locationText := "L", datetime := some ("2025-13-40") }

/-- Witness for C10 at a node with unparseable datetime 2025-13-40. -/
theorem parse_bad_datetime_zero_time_kept_witness :
    extractJob wBadDateNode ∈ parseLinkedInBody [wBadDateNode]
    ∧ (extractJob wBadDateNode).postedAt = ⟨goZeroTimeNs, true⟩ :=
  parse_bad_datetime_zero_time_kept [wBadDateNode] wBadDateNode (by simp) rfl (by decide)

/-- Concrete posting of the C3 scenario. -/
def oX : CreateOfferParams :=
  { id := "X", title := "t", company := "c", location := "l", postedAt := ⟨0, true⟩ }

/-- C3 counterexample: the same posting surfaced for query 1 and then
query 2 is stored once, but the duplicate-id outcome of CreateOffer makes
the loop `continue` past query 2's association, which is never created. -/
theorem persist_duplicate_second_assoc_missing_cex :
    ((persistOffers 2 [oX] (persistOffers 1 [oX] ⟨[], [], []⟩)).offers.length = 1)
    ∧ ¬ ((((2 : Int), oX.id)) ∈
        (persistOffers 2 [oX] (persistOffers 1 [oX] ⟨[], [], []⟩)).assocs) := by
  decide

lemma any_id_eq_false {l : List Offer} {s : String}
    (h : ∀ x ∈ l, x.id ≠ s) : l.any (fun x => x.id == s) = false := by
  rw [List.any_eq_false]
  intro x hx
  simpa using h x hx

/-- C3 as amended: persisting the same posting for a second query stores
exactly one Offer row system-wide and leaves the state of the first run
untouched: the duplicate-id outcome of CreateOffer makes the loop
`continue` to the next posting, so only the first originating query's
association exists and the second query's association is not created. -/
theorem persist_duplicate_one_offer_first_assoc_only
    (q1 q2 : Int) (o : CreateOfferParams) (st : DBState)
    (hfresh : ∀ x ∈ st.offers, x.id ≠ o.id)
    (hassoc1 : (((q1, o.id)) : Int × String) ∉ st.assocs)
    (hassoc2 : (((q2, o.id)) : Int × String) ∉ st.assocs)
    (hq : q2 ≠ q1) :
    persistOffers q2 [o] (persistOffers q1 [o] st) = persistOffers q1 [o] st
    ∧ ((persistOffers q2 [o] (persistOffers q1 [o] st)).offers.filter
        (fun x => x.id == o.id)).length = 1
    ∧ (((q1, o.id)) : Int × String) ∈ (persistOffers q2 [o] (persistOffers q1 [o] st)).assocs
    ∧ (((q2, o.id)) : Int × String) ∉ (persistOffers q2 [o] (persistOffers q1 [o] st)).assocs := by
  have hco : createOfferDB st o =
      .ok ⟨st.queries, st.offers ++ [offerOfParams o], st.assocs⟩ := by
    rw [createOfferDB, if_neg]
    rw [any_id_eq_false hfresh]
    simp
  have hcond : ¬ ((⟨st.queries, st.offers ++ [offerOfParams o], st.assocs⟩ :
      DBState).assocs.any (fun p => p.1 == q1 && p.2 == o.id)) = true := by
    simp only [List.any_eq_true, Bool.and_eq_true, beq_iff_eq, not_exists]
    rintro p ⟨hp, e1, e2⟩
    apply hassoc1
    have hp2 : p = (q1, o.id) := by
      cases p
      simp_all
    rw [← hp2]
    exact hp
  have hca : createAssocDB ⟨st.queries, st.offers ++ [offerOfParams o], st.assocs⟩ q1 o.id =
      .ok ⟨st.queries, st.offers ++ [offerOfParams o], st.assocs ++ [(q1, o.id)]⟩ := by
    rw [createAssocDB, if_neg hcond]
  have h1 : persistOffers q1 [o] st =
      ⟨st.queries, st.offers ++ [offerOfParams o], st.assocs ++ [(q1, o.id)]⟩ := by
    simp only [persistOffers, List.foldl_cons, List.foldl_nil, hco, hca]
  have hdup : createOfferDB
      ⟨st.queries, st.offers ++ [offerOfParams o], st.assocs ++ [(q1, o.id)]⟩ o =
        .error () := by
    rw [createOfferDB, if_pos]
    simp [List.any_append, offerOfParams]
  have h2 : persistOffers q2 [o] (persistOffers q1 [o] st) = persistOffers q1 [o] st := by
    rw [h1]
    simp only [persistOffers, List.foldl_cons, List.foldl_nil, hdup]
  refine ⟨h2, ?_, ?_, ?_⟩
  · rw [h2, h1]
    have hnil : st.offers.filter (fun x => x.id == o.id) = [] := by
      rw [List.filter_eq_nil_iff]
      intro x hx
      simpa using hfresh x hx
    simp [List.filter_append, hnil, offerOfParams]
  · rw [h2, h1]
    simp
  · rw [h2, h1]
    intro hmem
    rcases List.mem_append.mp hmem with hmem1 | hmem2
    · exact hassoc2 hmem1
    · simp at hmem2
      exact hq hmem2

/-- Witness for the amended C3 with queries 1 and 2 and posting id X. -/
theorem persist_duplicate_one_offer_first_assoc_only_witness :
    persistOffers 2 [oX] (persistOffers 1 [oX] ⟨[], [], []⟩) = persistOffers 1 [oX] ⟨[], [], []⟩
    ∧ ((persistOffers 2 [oX] (persistOffers 1 [oX] ⟨[], [], []⟩)).offers.filter
        (fun x => x.id == oX.id)).length = 1
    ∧ ((((1 : Int), oX.id)) : Int × String) ∈
        (persistOffers 2 [oX] (persistOffers 1 [oX] ⟨[], [], []⟩)).assocs
    ∧ ((((2 : Int), oX.id)) : Int × String) ∉
        (persistOffers 2 [oX] (persistOffers 1 [oX] ⟨[], [], []⟩)).assocs :=
  persist_duplicate_one_offer_first_assoc_only 1 2 oX ⟨[], [], []⟩
    (by simp) (by simp) (by simp) (by decide)

/-- Query of the lifecycle witnesses. -/
def wQuery : Query :=
  { id := 1, keywords := "golang", location := "berlin",
    createdAt := ⟨0, true⟩, queriedAt := ⟨0, true⟩, updatedAt := ⟨0, false⟩ }

/-- Scraper of the C4 witness: never reached. -/
def wScraperIdle : Query → List CreateOfferParams × Option ScrapeErr := fun _ => ([], none)

/-- C4: a query whose queriedAt lies more than 7 days in the past at the
start of a run is deleted from storage, its recurring task is removed via
the tag-based removal, and the run stops before any scrape: the scraper is
not called, offers are untouched, updatedAt of no surviving query changes
(every remaining query row is unchanged). -/
theorem runQuery_expired_deletes_without_scrape
    (now : Int) (scraper : Query → List CreateOfferParams × Option ScrapeErr)
    (st : DBState) (tasks : List SchedTask) (qID : Int) (q : Query)
    (hfind : st.queries.find? (fun x => x.id == qID) = some q)
    (hexp : now - q.queriedAt.time > sevenDaysNs) :
    runQuery now scraper st tasks qID =
      ⟨deleteQueryDB st q.id, removeByTags tasks (q.keywords ++ q.location), false, false⟩
    ∧ (∀ x ∈ (deleteQueryDB st q.id).queries, x.id ≠ q.id)
    ∧ (deleteQueryDB st q.id).offers = st.offers
    ∧ (∀ x ∈ (deleteQueryDB st q.id).queries, x ∈ st.queries) := by
  refine ⟨?_, ?_, rfl, ?_⟩
  · rw [runQuery, hfind]
    simp [hexp]
  · intro x hx
    simp only [deleteQueryDB, List.mem_filter, Bool.not_eq_eq_eq_not, Bool.not_true,
      beq_eq_false_iff_ne] at hx
    exact hx.2
  · intro x hx
    simp only [deleteQueryDB, List.mem_filter] at hx
    exact hx.1

/-- Witness for C4: a query last read at time 0, run at 700000 seconds. -/
theorem runQuery_expired_deletes_without_scrape_witness :
    runQuery 700000000000000 wScraperIdle ⟨[wQuery], [], []⟩
        [.recurring ("golang" ++ "berlin") 1 0] 1 =
      ⟨deleteQueryDB ⟨[wQuery], [], []⟩ wQuery.id,
        removeByTags [.recurring ("golang" ++ "berlin") 1 0] (wQuery.keywords ++ wQuery.location),
        false, false⟩
    ∧ (∀ x ∈ (deleteQueryDB ⟨[wQuery], [], []⟩ wQuery.id).queries, x.id ≠ wQuery.id)
    ∧ (deleteQueryDB ⟨[wQuery], [], []⟩ wQuery.id).offers = ([] : List Offer)
    ∧ (∀ x ∈ (deleteQueryDB ⟨[wQuery], [], []⟩ wQuery.id).queries, x ∈ [wQuery]) :=
  runQuery_expired_deletes_without_scrape 700000000000000 wScraperIdle
    ⟨[wQuery], [], []⟩ [.recurring ("golang" ++ "berlin") 1 0] 1 wQuery rfl (by decide)

/-- C5: creating a query whose (keywords, location) pair already exists
returns success (nil error) and changes nothing: the stored queries and
the scheduled tasks are exactly as before, in particular both counts are
unchanged. -/
theorem createQuery_existing_pair_noop
    (now : Int) (st : DBState) (tasks : List SchedTask) (keywords location : String)
    (hex : st.queries.any (fun q => q.keywords == keywords && q.location == location) = true) :
    CreateQueryJ now st tasks keywords location = ⟨none, st, tasks⟩
    ∧ (CreateQueryJ now st tasks keywords location).db.queries.length = st.queries.length
    ∧ (CreateQueryJ now st tasks keywords location).tasks.length = tasks.length := by
  have h : createQueryDB now st keywords location = .error () := by
    rw [createQueryDB, if_pos hex]
  refine ⟨?_, ?_, ?_⟩ <;> simp [CreateQueryJ, h]

/-- Witness for C5: re-creating the stored (golang, berlin) query. -/
theorem createQuery_existing_pair_noop_witness :
    CreateQueryJ 0 ⟨[wQuery], [], []⟩ [.recurring ("golang" ++ "berlin") 1 0]
        ("golang") ("berlin") =
      ⟨none, ⟨[wQuery], [], []⟩, [.recurring ("golang" ++ "berlin") 1 0]⟩
    ∧ (CreateQueryJ 0 ⟨[wQuery], [], []⟩ [.recurring ("golang" ++ "berlin") 1 0]
        ("golang") ("berlin")).db.queries.length = ([wQuery] : List Query).length
    ∧ (CreateQueryJ 0 ⟨[wQuery], [], []⟩ [.recurring ("golang" ++ "berlin") 1 0]
        ("golang") ("berlin")).tasks.length =
          ([.recurring ("golang" ++ "berlin") 1 0] : List SchedTask).length :=
  createQuery_existing_pair_noop 0 ⟨[wQuery], [], []⟩
    [.recurring ("golang" ++ "berlin") 1 0] ("golang") ("berlin") (by decide)

/-- Scraper of the C9 witness: always a retryable-exhausted failure. -/
def wScraperRetry : Query → List CreateOfferParams × Option ScrapeErr :=
  fun _ => ([], some (.fetchFailed .retryableExhausted))

/-- C9: when the scrape for a live query fails with an error `errors.Is`
classifies as retryable, runQuery appends exactly one one-off task for the
same query 5 minutes in the future and returns with the database unchanged
(no offer persistence, no UpdateQueryUAT call). -/
theorem runQuery_retryable_schedules_oneoff
    (now : Int) (scraper : Query → List CreateOfferParams × Option ScrapeErr)
    (st : DBState) (tasks : List SchedTask) (qID : Int) (q : Query)
    (ps : List CreateOfferParams) (e : ScrapeErr)
    (hfind : st.queries.find? (fun x => x.id == qID) = some q)
    (hexp : ¬ (now - q.queriedAt.time > sevenDaysNs))
    (hscr : scraper q = (ps, some e))
    (hre : scrapeErrIsRetryable e = true) :
    runQuery now scraper st tasks qID =
      ⟨st, tasks ++ [.oneOff (now + fiveMinutesNs) q.id], true, false⟩ := by
  rw [runQuery, hfind]
  simp [hexp, hscr, hre]

/-- Witness for C9: a fresh query whose scrape hits the retryable-
exhausted error. -/
theorem runQuery_retryable_schedules_oneoff_witness :
    runQuery 0 wScraperRetry ⟨[wQuery], [], []⟩ [] 1 =
      ⟨⟨[wQuery], [], []⟩, [] ++ [.oneOff (0 + fiveMinutesNs) wQuery.id], true, false⟩ :=
  runQuery_retryable_schedules_oneoff 0 wScraperRetry ⟨[wQuery], [], []⟩ [] 1 wQuery
    [] (.fetchFailed .retryableExhausted) rfl (by decide) rfl rfl
